import Mathlib

/-
Verification development for the Hive-Social repository.

The definitions below are a shallow embedding of the action-broadcasting
layer of the application: the social write helpers of SocialUtils
(likePost, commentOnPost, followUser, unfollowUser, checkIfFollowing),
the publish flows of CreatePost (handleSubmit in its Keychain and direct
branches, handleDirectPost, generatePermlink), the comment flow of
PostView (handleComment), the vote and follow view-state handlers of the
Post and FollowButton components, and the localStorage session handling
of App, Login and Navbar.

Modelling conventions:
  - JavaScript promises and callbacks are modelled by passing the outcome
    of the external agent or network call as an explicit argument of an
    inductive environment type; the value each flow resolves to is the
    returned result.
  - The browser signing agent (window.hive_keychain) is modelled by an
    environment value that is either absent, invokes the callback with a
    response, or never invokes the callback.
  - JSON.stringify applied to a literal object is abstracted to a
    structured JsonVal value holding the same fields in the same order;
    serialization itself carries no information used by any claim.
  - Machine time (Date.now, toISOString) and Math.random are passed in as
    explicit arguments, since the source reads them from the environment.
  - Functions that submit operations to the network or to the signing
    agent additionally return the list of submissions they performed, so
    that frame properties (no network call was made) are statable.
-/

namespace HiveSocial

/-- JsonVal models a JSON value as produced by JSON.stringify of the
object literals appearing in the source. -/
inductive JsonVal where
  | str (s : String)
  | num (n : Int)
  | arr (xs : List JsonVal)
  | obj (fields : List (String × JsonVal))
  deriving Repr

/-- The function jsOr models the JavaScript expression m || d for an
optional string m: the default d is used when m is missing or is the
empty string (which is falsy in JavaScript). -/
def jsOr (m : Option String) (d : String) : String :=
  match m with
  | some s => if s = "" then d else s
  | none => d

/-- Character class of the JavaScript regex \w, namely [A-Za-z0-9_]. -/
def isWordChar (c : Char) : Bool :=
  c.isAlpha || c.isDigit || c = '_'

/-- Character class of the JavaScript regex \s restricted to the ASCII
whitespace characters (space, tab, newline, carriage return, form feed,
vertical tab); the Unicode space characters that \s also matches cannot
occur in the claims considered here. -/
def jsIsSpace (c : Char) : Bool :=
  c.isWhitespace || c = '\x0c' || c = '\x0b'

/-- Character class of the regex [a-z0-9-] used by the comment permlink
generator in SocialUtils and PostView. -/
def isCommentSlugChar (c : Char) : Bool :=
  c.isLower || c.isDigit || c = '-'

/-- Helper for collapseSpaces carrying a flag that records whether the
previous character was whitespace, so that each maximal whitespace run
is replaced by a single hyphen, as replace of the regex \s+ does. -/
def collapseSpacesAux : Bool → List Char → List Char
  | _, [] => []
  | prevSpace, c :: cs =>
    if jsIsSpace c then
      if prevSpace then collapseSpacesAux true cs
      else '-' :: collapseSpacesAux true cs
    else c :: collapseSpacesAux false cs

/-- Replacement of every maximal whitespace run by a single hyphen,
modelling replace of the regex \s+ with a hyphen. -/
def collapseSpaces (l : List Char) : List Char :=
  collapseSpacesAux false l

/-- Slug fragment of generatePermlink in CreatePost handleSubmit:
lowercase the title, strip the characters matching [^\w\s], replace each
whitespace run by a hyphen, and keep the first 50 characters.
Char.toLower agrees with the JavaScript toLowerCase on ASCII; characters
outside ASCII are removed by the \w filter in both semantics. -/
def slugList (title : String) : List Char :=
  ((title.data.map Char.toLower).filter
      (fun c => isWordChar c || jsIsSpace c) |> collapseSpaces).take 50

/-- Time token of generatePermlink: the ISO timestamp with every
character outside [a-zA-Z0-9] stripped, lowercased, first 8 characters. -/
def timeTokenList (isoTime : String) : List Char :=
  ((isoTime.data.filter Char.isAlphanum).map Char.toLower).take 8

/-- Character list produced by generatePermlink in CreatePost
handleSubmit: slug, hyphen, time token, hyphen, random token. The random
token models Math.random().toString(36).substring(2, 8). -/
def generatePermlinkList (title isoTime rand : String) : List Char :=
  slugList title ++ ('-' :: (timeTokenList isoTime ++ ('-' :: rand.data)))

/-- String form of generatePermlink in CreatePost handleSubmit. -/
def generatePermlink (title isoTime rand : String) : String :=
  ⟨generatePermlinkList title isoTime rand⟩

/-- Comment permlink generator used by commentOnPost in SocialUtils and
handleComment in PostView: the parent permlink with every character
outside [a-z0-9-] stripped, wrapped between a re- marker and the current
time in milliseconds. -/
def commentPermlink (parentPermlink : String) (nowMs : Nat) : String :=
  "re-" ++ ⟨parentPermlink.data.filter isCommentSlugChar⟩ ++ "-" ++ toString nowMs

/-- Whitespace trimming of both ends of a character list, modelling the
JavaScript string trim (restricted, as jsIsSpace is, to ASCII
whitespace). -/
def trimChars (l : List Char) : List Char :=
  ((l.dropWhile jsIsSpace).reverse.dropWhile jsIsSpace).reverse

/-- Helper for splitOnSpace accumulating the current piece in reverse. -/
def splitOnSpaceAux (acc : List Char) : List Char → List (List Char)
  | [] => [acc.reverse]
  | c :: cs =>
      if c = ' ' then acc.reverse :: splitOnSpaceAux [] cs
      else splitOnSpaceAux (c :: acc) cs

/-- Splitting of a character list at every single space character,
modelling the JavaScript split on a one-space separator. -/
def splitOnSpace (l : List Char) : List (List Char) :=
  splitOnSpaceAux [] l

/-- Tag parsing in CreatePost handleSubmit: lowercase the tags field,
split on single spaces, trim each piece, drop the empty pieces. -/
def parseTags (tags : String) : List String :=
  (((splitOnSpace (tags.data.map Char.toLower)).map trimChars).filter
    (fun t => t ≠ [])).map String.mk

/-- Result object returned by the SocialUtils helpers: a success flag
plus the optional fields the individual helpers attach. -/
structure SocialResult where
  success : Bool
  error : Option String := none
  simulated : Bool := false
  permlink : Option String := none
  isFollowing : Option Bool := none
  followCount : Option Nat := none
  deriving Repr, DecidableEq

/-- Ledger operations as built by the source, with JSON payloads kept as
structured JsonVal values. -/
inductive Operation where
  | vote (voter author permlink : String) (weight : Int)
  | comment (parentAuthor parentPermlink author permlink title body : String)
      (jsonMetadata : JsonVal)
  | customJson (requiredAuths requiredPostingAuths : List String) (id : String)
      (json : JsonVal)
  deriving Repr

/-- Arguments of one window.hive_keychain.requestBroadcast call. -/
structure BroadcastReq where
  account : String
  ops : List Operation
  authority : String
  deriving Repr

/-- Outcome of one SocialUtils helper call, as observed by a caller
awaiting the returned promise: the promise settles with a result value,
never settles, or rejects with an error that passed the helper boundary
uncaught. -/
inductive HelperOutcome where
  | resolved (r : SocialResult)
  | pending
  | rejected (message : Option String)
  deriving Repr, DecidableEq

/-- Environment of a SocialUtils helper call:
absent - window.hive_keychain is not installed;
callback - the agent is installed and invokes the broadcast callback
once with a response carrying a success flag and an optional message;
noCallback - the agent is installed but the callback never fires, and
since no timer guards the wait the promise built around it never
settles;
requestThrows - the call into requestBroadcast throws synchronously
inside the Promise executor, which the Promise constructor turns into a
rejection of the returned promise; the helper returns that promise
without awaiting it, so its own try/catch does not intercept the
rejection and it passes the helper boundary;
bodyThrows - an exception is raised inside the try block before the
agent branch is reached (for commentOnPost, for example, while deriving
the comment permlink from a malformed argument); this one is intercepted
by the catch block and becomes a typed failure with the helper-specific
fallback message. -/
inductive KeychainEnv where
  | absent
  | callback (ok : Bool) (message : Option String)
  | noCallback
  | requestThrows (message : Option String)
  | bodyThrows (message : Option String)
  deriving Repr, DecidableEq

/-- Model of likePost in SocialUtils. The first Bool models whether the
client argument is present; a missing username is modelled by the empty
string, matching the falsiness test of the source. The second component
of the result collects the requestBroadcast calls the agent received. -/
def likePost (clientPresent : Bool) (username postAuthor postPermlink : String)
    (weight : Int) (env : KeychainEnv) : HelperOutcome × List BroadcastReq :=
  if clientPresent = false ∨ username = "" then
    (.resolved { success := false,
                 error := some "Client or username not provided" }, [])
  else
    let voteOp := Operation.vote username postAuthor postPermlink weight
    match env with
    | .bodyThrows msg =>
        (.resolved { success := false,
                     error := some (jsOr msg "Failed to like post") }, [])
    | .absent => (.resolved { success := true, simulated := true }, [])
    | .callback ok msg =>
        let req : BroadcastReq := ⟨username, [voteOp], "posting"⟩
        if ok then (.resolved { success := true }, [req])
        else
          (.resolved { success := false,
                       error := some (jsOr msg "Failed to vote with Keychain") },
           [req])
    | .noCallback => (.pending, [⟨username, [voteOp], "posting"⟩])
    | .requestThrows msg => (.rejected msg, [])

/-- Model of commentOnPost in SocialUtils. The options argument models
the spread of the options object into the metadata, where a later field
overrides an earlier one of the same name. -/
def commentOnPost (clientPresent : Bool)
    (username parentAuthor parentPermlink body : String)
    (options : List (String × JsonVal)) (nowMs : Nat) (env : KeychainEnv) :
    HelperOutcome × List BroadcastReq :=
  if clientPresent = false ∨ username = "" then
    (.resolved { success := false,
                 error := some "Client or username not provided" }, [])
  else
    let permlink := commentPermlink parentPermlink nowMs
    let commentOp := Operation.comment parentAuthor parentPermlink username
        permlink "" body
        (JsonVal.obj (("app", JsonVal.str "hivesocial") :: options))
    match env with
    | .bodyThrows msg =>
        (.resolved { success := false,
                     error := some (jsOr msg "Failed to comment on post") }, [])
    | .absent =>
        (.resolved { success := true, simulated := true,
                     permlink := some permlink }, [])
    | .callback ok msg =>
        let req : BroadcastReq := ⟨username, [commentOp], "posting"⟩
        if ok then
          (.resolved { success := true, permlink := some permlink }, [req])
        else
          (.resolved { success := false,
                       error := some (jsOr msg "Failed to comment with Keychain") },
           [req])
    | .noCallback => (.pending, [⟨username, [commentOp], "posting"⟩])
    | .requestThrows msg => (.rejected msg, [])

/-- JSON payload of the follow and unfollow custom operations: the array
with the follow marker and the follower, following and what fields. -/
def followJson (follower following : String) (what : List String) : JsonVal :=
  JsonVal.arr [JsonVal.str "follow",
    JsonVal.obj [("follower", JsonVal.str follower),
                 ("following", JsonVal.str following),
                 ("what", JsonVal.arr (what.map JsonVal.str))]]

/-- Model of followUser in SocialUtils. -/
def followUser (clientPresent : Bool) (follower following : String)
    (env : KeychainEnv) : HelperOutcome × List BroadcastReq :=
  if clientPresent = false ∨ follower = "" then
    (.resolved { success := false,
                 error := some "Client or follower not provided" }, [])
  else
    let followOp := Operation.customJson [] [follower] "follow"
        (followJson follower following ["blog"])
    match env with
    | .bodyThrows msg =>
        (.resolved { success := false,
                     error := some (jsOr msg "Failed to follow user") }, [])
    | .absent => (.resolved { success := true, simulated := true }, [])
    | .callback ok msg =>
        let req : BroadcastReq := ⟨follower, [followOp], "posting"⟩
        if ok then (.resolved { success := true }, [req])
        else
          (.resolved { success := false,
                       error := some (jsOr msg "Failed to follow with Keychain") },
           [req])
    | .noCallback => (.pending, [⟨follower, [followOp], "posting"⟩])
    | .requestThrows msg => (.rejected msg, [])

/-- Model of unfollowUser in SocialUtils; the payload carries the empty
what list. -/
def unfollowUser (clientPresent : Bool) (follower following : String)
    (env : KeychainEnv) : HelperOutcome × List BroadcastReq :=
  if clientPresent = false ∨ follower = "" then
    (.resolved { success := false,
                 error := some "Client or follower not provided" }, [])
  else
    let unfollowOp := Operation.customJson [] [follower] "follow"
        (followJson follower following [])
    match env with
    | .bodyThrows msg =>
        (.resolved { success := false,
                     error := some (jsOr msg "Failed to unfollow user") }, [])
    | .absent => (.resolved { success := true, simulated := true }, [])
    | .callback ok msg =>
        let req : BroadcastReq := ⟨follower, [unfollowOp], "posting"⟩
        if ok then (.resolved { success := true }, [req])
        else
          (.resolved { success := false,
                       error := some (jsOr msg "Failed to unfollow with Keychain") },
           [req])
    | .noCallback => (.pending, [⟨follower, [unfollowOp], "posting"⟩])
    | .requestThrows msg => (.rejected msg, [])

/-- Model of checkIfFollowing in SocialUtils. The ledger argument is the
outcome of the get_follow_count call (a count, or a thrown error with an
optional message); rand is the value drawn from Math.random, a rational
in the unit interval. The returned isFollowing flag is the comparison of
that draw with one half, exactly as in the source. -/
def checkIfFollowing (clientPresent : Bool) (follower following : String)
    (ledger : Except (Option String) Nat) (rand : ℚ) : SocialResult :=
  if clientPresent = false then
    { success := false, error := some "Client not provided" }
  else
    match ledger with
    | .error msg =>
        { success := false,
          error := some (jsOr msg "Failed to check follow status") }
    | .ok cnt =>
        { success := true, isFollowing := some (decide (rand > 1/2)),
          followCount := some cnt }

/-- Relevant view state of the CreatePost component. -/
structure CreatePostState where
  isSubmitting : Bool
  error : String
  successMessage : String
  deriving Repr, DecidableEq

/-- Outcome of a request sent to the signing agent: the agent invokes
the callback with a response, or the callback never fires. -/
inductive AgentOutcome where
  | callback (ok : Bool) (message : Option String)
  | noCallback
  deriving Repr, DecidableEq

/-- Input validation of CreatePost handleSubmit, performed before either
posting branch runs: a missing user and an empty trimmed title, body or
tags field each produce the corresponding error message, and a tags
field that parses to an empty list is also refused. -/
def validatePublish (user : Option String) (title body tags : String) :
    Option String :=
  if user.isNone then some "You must be logged in to create a post"
  else if trimChars title.data = [] then some "Please enter a title"
  else if trimChars body.data = [] then some "Please enter content for your post"
  else if trimChars tags.data = [] then some "Please enter at least one tag"
  else if parseTags tags = [] then some "Please enter at least one valid tag"
  else none

/-- Post metadata built by CreatePost handleSubmit: the parsed tag list,
the producing application marker, the format marker and the optional
image reference (the empty image URL is falsy and yields no entry). -/
def publishMetadata (tagArray : List String) (imageUrl : String) : JsonVal :=
  JsonVal.obj [("tags", JsonVal.arr (tagArray.map JsonVal.str)),
               ("app", JsonVal.str "hivesocial/1.0.0"),
               ("format", JsonVal.str "markdown"),
               ("image", JsonVal.arr
                  (if imageUrl = "" then [] else [JsonVal.str imageUrl]))]

/-- Community slot of the Keychain post request and parent permlink of
the direct post operation: the first parsed tag, or the default
community when the tag list is empty. -/
def firstTagOrDefault (tagArray : List String) : String :=
  match tagArray with
  | t :: _ => t
  | [] => "hive-174695"

/-- Arguments of one window.hive_keychain.requestPost call. -/
structure PostRequest where
  account : String
  permlink : String
  community : String
  title : String
  body : String
  metadata : JsonVal
  authority : String
  deriving Repr

/-- Output of the Keychain branch of handleSubmit: the final component
state, the post request handed to the agent (if any), and the list of
watchdog timer durations installed around the wait for the agent (a
setTimeout whose firing would abort the wait); the source installs
none in this branch. -/
structure KeychainSubmitOutput where
  state : CreatePostState
  request : Option PostRequest
  watchdogTimersMs : List Nat
  deriving Repr

/-- Resolution of the Keychain post request in handleSubmit: on a
successful callback the submitting flag clears and the success message
is shown; on a failed callback the submitting flag clears and the error
is shown; when the callback never fires nothing in the component state
changes, since no timer guards the wait. -/
def publishKeychainResolve (s : CreatePostState) (out : AgentOutcome) :
    CreatePostState :=
  match out with
  | .callback ok msg =>
      if ok then
        { s with isSubmitting := false,
                 successMessage := "Post published successfully!" }
      else
        { s with isSubmitting := false,
                 error := "Failed to publish post: " ++ jsOr msg "Unknown error" }
  | .noCallback => s

/-- Model of the Keychain branch of CreatePost handleSubmit: validation
first, then the permlink and metadata are built and the post request is
handed to the agent, whose outcome resolves the component state. -/
def handleSubmitKeychain (user : Option String)
    (title body tags imageUrl isoTime rand : String) (out : AgentOutcome) :
    KeychainSubmitOutput :=
  match validatePublish user title body tags with
  | some e => ⟨⟨false, e, ""⟩, none, []⟩
  | none =>
      let tagArray := parseTags tags
      let permlink := generatePermlink title isoTime rand
      let req : PostRequest :=
        ⟨user.getD "", permlink, firstTagOrDefault tagArray, title, body,
         publishMetadata tagArray imageUrl, "posting"⟩
      ⟨publishKeychainResolve ⟨true, "", ""⟩ out, some req, []⟩

/-- Model of the direct branch of CreatePost handleSubmit. The prompt
argument is the value returned by the posting-key prompt (missing when
cancelled); keyParses records whether PrivateKey.from accepts the
entered string; bo is the outcome of the sendOperations broadcast. The
second component lists the operation batches broadcast through the
endpoint pool. -/
def handleSubmitDirect (clientAvailable : Bool) (user : Option String)
    (title body tags imageUrl isoTime rand : String) (prompt : Option String)
    (keyParses : Bool) (bo : Except (Option String) Unit) :
    CreatePostState × List (List Operation) :=
  match validatePublish user title body tags with
  | some e => (⟨false, e, ""⟩, [])
  | none =>
      if clientAvailable = false then
        (⟨false, "Hive client not initialized. Please refresh the page.", ""⟩, [])
      else if prompt = none ∨ prompt = some "" then
        (⟨false, "Posting key is required to publish a post.", ""⟩, [])
      else if keyParses = false then
        (⟨false,
          "Invalid private key format. Please make sure you are using the correct private posting key.",
          ""⟩, [])
      else
        let tagArray := parseTags tags
        let permlink := generatePermlink title isoTime rand
        let op := Operation.comment "" (firstTagOrDefault tagArray)
            (user.getD "") permlink title body (publishMetadata tagArray imageUrl)
        match bo with
        | .ok _ =>
            (⟨true, "", "Post published successfully!"⟩, [[op]])
        | .error msg =>
            (⟨false, "Failed to publish post: " ++ jsOr msg "Unknown error", ""⟩,
             [[op]])

/-- Output of handleDirectPost: final component state, broadcast
batches, and the watchdog timer durations installed. -/
structure DirectPostOutput where
  state : CreatePostState
  batches : List (List Operation)
  watchdogTimersMs : List Nat
  deriving Repr

/-- Model of CreatePost handleDirectPost. The handler reads the user,
title, body and imageUrl fields of the component; the tags field of the
form exists in the component state but is never read by this handler,
which hardcodes its tag list, so it is an explicitly unused argument
here. A 30 second watchdog timer is installed before the broadcast; its
firing is modelled by directPostTimeoutFire below. -/
def handleDirectPost (user : Option String) (title body : String)
    (tags : String) (imageUrl : String) (nowMs : Nat) (prompt : Option String)
    (keyParses : Bool) (bo : Except (Option String) Unit) : DirectPostOutput :=
  if user.isNone then
    ⟨⟨false, "You must be logged in to create a post", ""⟩, [], []⟩
  else if trimChars title.data = [] then
    ⟨⟨false, "Please enter a title", ""⟩, [], []⟩
  else if trimChars body.data = [] then
    ⟨⟨false, "Please enter content for your post", ""⟩, [], []⟩
  else if prompt = none ∨ prompt = some "" then
    ⟨⟨false, "Posting key is required to publish a post.", ""⟩, [], [30000]⟩
  else if keyParses = false then
    ⟨⟨false,
      "Invalid private key format. Please make sure you are using the correct private posting key.",
      ""⟩, [], [30000]⟩
  else
    let simplePermlink := "post-" ++ toString nowMs
    let op := Operation.comment "" "hive-174695" (user.getD "") simplePermlink
        title body
        (JsonVal.obj [("tags", JsonVal.arr [JsonVal.str "hive-174695",
                                            JsonVal.str "hivesocial"]),
                      ("app", JsonVal.str "hivesocial/1.0.0"),
                      ("format", JsonVal.str "markdown"),
                      ("image", JsonVal.arr
                        (if imageUrl = "" then [] else [JsonVal.str imageUrl]))])
    match bo with
    | .ok _ =>
        ⟨⟨false, "", "Post published successfully!"⟩, [[op]], [30000]⟩
    | .error msg =>
        ⟨⟨false, "Failed to publish post: " ++ jsOr msg "Unknown error", ""⟩,
         [[op]], [30000]⟩

/-- Firing of the 30 second watchdog installed by handleDirectPost: the
submitting flag clears and a timeout error message is shown. -/
def directPostTimeoutFire (s : CreatePostState) : CreatePostState :=
  { s with isSubmitting := false,
           error := "Posting timed out. Please try again." }

/-- Relevant view state of the comment form in PostView. -/
structure CommentViewState where
  submittingComment : Bool
  commentError : String
  commentBody : String
  deriving Repr, DecidableEq

/-- Arguments of one window.hive_keychain.requestComment call. -/
structure CommentRequest where
  account : String
  parentPermlink : String
  parentAuthor : String
  permlink : String
  title : String
  body : String
  metadata : JsonVal
  deriving Repr

/-- Model of handleComment in PostView: after the body and login checks
the comment request is handed to the agent; on a successful callback the
body clears, on a failed callback the error shows, and when the callback
never fires the state keeps the submitting flag set, since no timer
guards the wait. The final List Nat component lists the watchdog timers
installed around the wait for the agent; the source installs none. -/
def handleComment (user : Option String) (keychainPresent : Bool)
    (author permlink : String) (s : CommentViewState) (nowMs : Nat)
    (out : AgentOutcome) : CommentViewState × Option CommentRequest × List Nat :=
  if trimChars s.commentBody.data = [] then
    ({ s with commentError := "Please enter a comment" }, none, [])
  else if user.isNone ∨ keychainPresent = false then
    ({ s with commentError := "Please login with Hive Keychain to comment" },
     none, [])
  else
    let commentPl := commentPermlink permlink nowMs
    let meta := JsonVal.obj [("app", JsonVal.str "hivesocial/1.0.0"),
                             ("format", JsonVal.str "markdown")]
    let req : CommentRequest :=
      ⟨user.getD "", permlink, author, commentPl, "", s.commentBody, meta⟩
    let inflight : CommentViewState :=
      { s with submittingComment := true, commentError := "" }
    match out with
    | .callback ok msg =>
        if ok then
          ({ inflight with submittingComment := false, commentBody := "" },
           some req, [])
        else
          let failed := { inflight with submittingComment := false }
          ({ failed with commentError := "Comment failed: " ++ msg.getD "undefined" },
           some req, [])
    | .noCallback => (inflight, some req, [])

/-- Relevant view state of the vote control in the Post component. -/
structure VoteViewState where
  hasVoted : Bool
  isVoting : Bool
  voteError : String
  deriving Repr, DecidableEq

/-- State of the Post component the moment handleVote has issued its
intent and the likePost call is still pending: the busy flag is set and
the previous error is cleared, but the vote flag is untouched. The
canVote flag models the guard that the user is logged in with Keychain;
when it fails the handler returns without changing the state. -/
def handleVoteStart (canVote : Bool) (s : VoteViewState) : VoteViewState :=
  if canVote = false then s
  else { s with isVoting := true, voteError := "" }

/-- Resolution of handleVote once the likePost result arrives: only a
successful result sets the vote flag; a failed result surfaces the error
message; the busy flag clears in both cases. -/
def handleVoteResolve (s : VoteViewState) (r : SocialResult) : VoteViewState :=
  if r.success then
    { s with hasVoted := true, isVoting := false }
  else
    { s with voteError := jsOr r.error "Failed to vote", isVoting := false }

/-- Relevant view state of the FollowButton component. -/
structure FollowViewState where
  isFollowing : Bool
  processing : Bool
  error : String
  deriving Repr, DecidableEq

/-- State of FollowButton the moment handleFollowToggle has issued its
intent and the follow or unfollow call is still pending: the busy flag
is set and the previous error cleared, but the follow flag is untouched.
The userPresent flag models the login guard. -/
def handleFollowToggleStart (userPresent : Bool) (s : FollowViewState) :
    FollowViewState :=
  if userPresent = false then s
  else { s with processing := true, error := "" }

/-- Resolution of handleFollowToggle once the result arrives: only a
successful result toggles the follow flag; a failed result surfaces the
error message; the busy flag clears in both cases. -/
def handleFollowToggleResolve (s : FollowViewState) (r : SocialResult) :
    FollowViewState :=
  if r.success then
    { s with isFollowing := !s.isFollowing, processing := false }
  else
    let d := if s.isFollowing then "Failed to unfollow user"
             else "Failed to follow user"
    { s with error := jsOr r.error d, processing := false }

/-- Browser localStorage modelled as a partial map from keys to stored
strings. -/
def Storage : Type := String → Option String

/-- Storage with no stored entries. -/
def emptyStorage : Storage := fun _ => none

/-- Model of localStorage.setItem. -/
def setItem (st : Storage) (k v : String) : Storage :=
  fun q => if q = k then some v else st q

/-- Model of localStorage.removeItem. -/
def removeItem (st : Storage) (k : String) : Storage :=
  fun q => if q = k then none else st q

/-- Storage effect of handleDirectLogin in Login (username non-empty):
the actor name is stored under the session key. -/
def directLoginStorage (st : Storage) (username : String) : Storage :=
  setItem st "hivesocial_user" username

/-- Storage effect of a successful handleKeychainLogin in Login: the
actor name is stored under the session key. -/
def keychainLoginStorage (st : Storage) (username : String) : Storage :=
  setItem st "hivesocial_user" username

/-- Storage effect of the Ecency login flow: Login stores the redirect
path before leaving the page, and EcencyCallback then stores the actor
name, the access token and the token expiry and removes the redirect
path. -/
def ecencyLoginStorage (st : Storage)
    (redirectPath username token expiry : String) : Storage :=
  let st1 := setItem st "hivesocial_redirect" redirectPath
  let st2 := setItem st1 "hivesocial_user" username
  let st3 := setItem st2 "hivesocial_token" token
  let st4 := setItem st3 "hivesocial_token_expiry" expiry
  removeItem st4 "hivesocial_redirect"

/-- Storage effect of handleLogout in Navbar: only the session key is
removed. -/
def logoutStorage (st : Storage) : Storage :=
  removeItem st "hivesocial_user"

/-- Actor restored at startup by App: the stored session value, with an
empty stored string treated as absent by the falsiness test of the
source. -/
def startupUser (st : Storage) : Option String :=
  match st "hivesocial_user" with
  | some u => if u = "" then none else some u
  | none => none

/-- Helper: the JavaScript fallback expression never produces the empty
string when the fallback text is itself non-empty. -/
theorem jsOr_ne_empty (m : Option String) (d : String) (hd : d ≠ "") :
    jsOr m d ≠ "" := by
  unfold jsOr
  cases m with
  | none => exact hd
  | some s =>
      by_cases hs : s = "" <;> simp [hs, hd]

/-- Well-formed helper result: success, or an error carrying a non-empty
message. -/
def wellFormedResult (r : SocialResult) : Prop :=
  r.success = true ∨ ∃ msg, r.error = some msg ∧ msg ≠ ""

/-- Claim C1, as stated, is false: likePost performs no weight-range
validation. At weight 20000, outside [-10000, 10000], likePost does not
return a validation error; it builds the vote operation with that weight
and submits it to the signing agent, and with a successful agent
response it resolves success. -/
theorem C1_counterexample :
    (likePost true "alice" "bob" "post-1" 20000 (.callback true none)).1 =
      HelperOutcome.resolved { success := true } ∧
    (likePost true "alice" "bob" "post-1" 20000
        (.callback true none)).2.length = 1 ∧
    (likePost true "alice" "bob" "post-1" 20000 (.callback true none)).2 =
      [⟨"alice", [Operation.vote "alice" "bob" "post-1" 20000], "posting"⟩] :=
  ⟨rfl, rfl, rfl⟩

/-- Claim C1 (amended): likePost performs no weight validation. For
every weight, in or out of [-10000, 10000], when the client and username
are present and the agent is installed, likePost invokes the signing
path with exactly the operation (voter, author, permlink, weight) built
from its arguments; the only validation failure it produces is for a
missing client or username, and that failure performs no submission. -/
theorem C1_like_post_no_weight_validation (u a p : String) (w : Int)
    (ok : Bool) (msg : Option String) (env : KeychainEnv) (hu : u ≠ "") :
    (likePost true u a p w (.callback ok msg)).2 =
      [⟨u, [Operation.vote u a p w], "posting"⟩] ∧
    likePost false u a p w env =
      (.resolved { success := false,
                   error := some "Client or username not provided" },
       []) := by
  constructor
  · simp only [likePost, hu]
    cases ok <;> simp
  · simp [likePost]

/-- Witness for C1: the amended statement instantiated at the
out-of-range weight 20000. -/
theorem C1_witness :
    ("alice" : String) ≠ "" ∧
    (likePost true "alice" "bob" "post-1" 20000 (.callback false none)).2 =
      [⟨"alice", [Operation.vote "alice" "bob" "post-1" 20000], "posting"⟩] :=
  ⟨by decide,
   (C1_like_post_no_weight_validation "alice" "bob" "post-1" 20000 false none
      .absent (by decide)).1⟩

/-- Claim C2, as stated, is false: the handlers are not speculative. At
the moment the vote or follow intent is issued and the submission is
still pending, the view model value is unchanged: the vote flag is still
false and the follow flag is still false; only the busy flag was set. -/
theorem C2_counterexample :
    (handleVoteStart true ⟨false, false, ""⟩).hasVoted = false ∧
    (handleVoteStart true ⟨false, false, ""⟩).isVoting = true ∧
    (handleFollowToggleStart true ⟨false, false, ""⟩).isFollowing = false ∧
    (handleFollowToggleStart true ⟨false, false, ""⟩).processing = true :=
  ⟨rfl, rfl, rfl, rfl⟩

/-- Claim C2 (amended): the vote and follow handlers are
confirmation-driven, not speculative. On intent only the busy flag is
set and the old error cleared; the view value (vote flag, follow flag)
is mutated only when the submission resolves successfully; on a failed
resolution the view value equals its pre-intent value (it was never
changed, so nothing is reverted) and a non-empty error message is
surfaced. -/
theorem C2_resolution_not_speculative (s : VoteViewState)
    (t : FollowViewState) (r q : SocialResult) :
    (handleVoteStart true s).hasVoted = s.hasVoted ∧
    (handleVoteStart true s).isVoting = true ∧
    (r.success = true →
      (handleVoteResolve (handleVoteStart true s) r).hasVoted = true) ∧
    (r.success = false →
      (handleVoteResolve (handleVoteStart true s) r).hasVoted = s.hasVoted ∧
      (handleVoteResolve (handleVoteStart true s) r).voteError ≠ "") ∧
    (handleFollowToggleStart true t).isFollowing = t.isFollowing ∧
    (handleFollowToggleStart true t).processing = true ∧
    (q.success = true →
      (handleFollowToggleResolve (handleFollowToggleStart true t) q).isFollowing
        = !t.isFollowing) ∧
    (q.success = false →
      (handleFollowToggleResolve (handleFollowToggleStart true t) q).isFollowing
        = t.isFollowing ∧
      (handleFollowToggleResolve (handleFollowToggleStart true t) q).error
        ≠ "") := by
  refine ⟨by simp [handleVoteStart], by simp [handleVoteStart], ?_, ?_,
          by simp [handleFollowToggleStart], by simp [handleFollowToggleStart],
          ?_, ?_⟩
  · intro hr
    simp [handleVoteStart, handleVoteResolve, hr]
  · intro hr
    constructor
    · simp [handleVoteStart, handleVoteResolve, hr]
    · simp only [handleVoteStart, handleVoteResolve, hr]
      simp only [Bool.false_eq_true, if_false, if_true]
      exact jsOr_ne_empty _ _ (by decide)
  · intro hq
    simp [handleFollowToggleStart, handleFollowToggleResolve, hq]
  · intro hq
    constructor
    · simp [handleFollowToggleStart, handleFollowToggleResolve, hq]
    · by_cases ht : t.isFollowing = true <;>
        simp [handleFollowToggleStart, handleFollowToggleResolve, hq, ht] <;>
        exact jsOr_ne_empty _ _ (by decide)

/-- Witness for C2: the failed-resolution conclusions at a concrete
pre-intent state and a concrete rejected result. -/
theorem C2_witness :
    (handleVoteResolve (handleVoteStart true ⟨false, false, ""⟩)
        { success := false }).hasVoted = false ∧
    (handleVoteResolve (handleVoteStart true ⟨false, false, ""⟩)
        { success := false }).voteError ≠ "" :=
  (C2_resolution_not_speculative ⟨false, false, ""⟩ ⟨false, false, ""⟩
      { success := false } { success := false }).2.2.2.1 rfl

/-- Claim C3: for every write helper, when the signing agent is not
installed the call resolves to a success result carrying the simulated
marker, and no submission to the agent or the network is performed, so
such a success result does not mean the operation reached the ledger. -/
theorem C3_simulated_success_without_agent :
    (∀ u a p w, u ≠ "" →
      likePost true u a p w .absent =
        (.resolved { success := true, simulated := true }, [])) ∧
    (∀ u pa pp b opts now, u ≠ "" →
      commentOnPost true u pa pp b opts now .absent =
        (.resolved { success := true, simulated := true,
                     permlink := some (commentPermlink pp now) }, [])) ∧
    (∀ f g, f ≠ "" →
      followUser true f g .absent =
        (.resolved { success := true, simulated := true }, [])) ∧
    (∀ f g, f ≠ "" →
      unfollowUser true f g .absent =
        (.resolved { success := true, simulated := true }, [])) := by
  refine ⟨?_, ?_, ?_, ?_⟩
  · intro u a p w hu
    simp [likePost, hu]
  · intro u pa pp b opts now hu
    simp [commentOnPost, hu]
  · intro f g hf
    simp [followUser, hf]
  · intro f g hf
    simp [unfollowUser, hf]

/-- Witness for C3: the simulated-success results at concrete inputs. -/
theorem C3_witness :
    ("alice" : String) ≠ "" ∧
    likePost true "alice" "bob" "post-1" 10000 .absent =
      (.resolved { success := true, simulated := true }, []) ∧
    followUser true "alice" "bob" .absent =
      (.resolved { success := true, simulated := true }, []) :=
  ⟨by decide,
   C3_simulated_success_without_agent.1 "alice" "bob" "post-1" 10000 (by decide),
   C3_simulated_success_without_agent.2.2.1 "alice" "bob" (by decide)⟩

/-- Claim C7: generatePermlink caps the slug fragment at 50 characters
and the time token at 8 characters, and the random suffix makes the
identifier non-deterministic in the title: two calls with the same title
(and the same actor, on which the identifier does not depend at all) but
different random tokens produce different identifiers. -/
theorem C7_permlink_shape_and_freshness (title isoTime r1 r2 : String)
    (h : r1 ≠ r2) :
    (slugList title).length ≤ 50 ∧
    (timeTokenList isoTime).length ≤ 8 ∧
    generatePermlink title isoTime r1 ≠ generatePermlink title isoTime r2 := by
  refine ⟨List.length_take_le _ _, List.length_take_le _ _, ?_⟩
  intro he
  apply h
  have hd : generatePermlinkList title isoTime r1 =
      generatePermlinkList title isoTime r2 := congrArg String.data he
  unfold generatePermlinkList at hd
  have h1 := List.append_cancel_left hd
  injection h1 with _ h2
  have h3 := List.append_cancel_left h2
  injection h3 with _ h4
  exact congrArg String.mk h4

/-- Witness for C7: two identifiers for the same title and time but
different random tokens differ. -/
theorem C7_witness :
    ("abc123" : String) ≠ "xyz789" ∧
    generatePermlink "Hello World" "2026-10-11T00:00:00.000Z" "abc123" ≠
      generatePermlink "Hello World" "2026-10-11T00:00:00.000Z" "xyz789" :=
  ⟨by decide,
   (C7_permlink_shape_and_freshness "Hello World" "2026-10-11T00:00:00.000Z"
      "abc123" "xyz789" (by decide)).2.2⟩

/-- Claim C10: the isFollowing flag returned by checkIfFollowing is
drawn from the random source alone: it is independent of the follower
and following arguments and of the follow count the ledger returned, and
two calls with identical inputs and identical ledger state can return
different flags for different random draws. -/
theorem C10_follow_check_random :
    (∀ c f1 g1 f2 g2 ledger r,
      (checkIfFollowing c f1 g1 ledger r).isFollowing =
        (checkIfFollowing c f2 g2 ledger r).isFollowing) ∧
    (∀ c f g c1 c2 r,
      (checkIfFollowing c f g (Except.ok c1) r).isFollowing =
        (checkIfFollowing c f g (Except.ok c2) r).isFollowing) ∧
    (checkIfFollowing true "alice" "bob" (Except.ok 5) 0).isFollowing
      = some false ∧
    (checkIfFollowing true "alice" "bob" (Except.ok 5) 1).isFollowing
      = some true := by
  refine ⟨?_, ?_, ?_, ?_⟩
  · intro c f1 g1 f2 g2 ledger r
    by_cases hc : c = false
    · simp [checkIfFollowing, hc]
    · cases ledger <;> simp [checkIfFollowing, hc]
  · intro c f g c1 c2 r
    by_cases hc : c = false <;> simp [checkIfFollowing, hc]
  · have h05 : ¬ ((0 : ℚ) > 1 / 2) := by norm_num
    simp [checkIfFollowing, h05]
  · simp [checkIfFollowing]
    norm_num

/-- Claim C4, as stated, is false: the AgentSigned submissions install
no timeout at all. In the Keychain publish flow and the Keychain comment
flow no watchdog timer guards the wait for the agent, and when the
agent callback never fires the flows stay pending indefinitely, with the
submitting flag still set and no error surfaced, instead of resolving to
a rejection after 30 seconds. -/
theorem C4_counterexample :
    (handleSubmitKeychain (some "alice") "Hello World" "hi" "intro" ""
        "2026-10-11T00:00:00.000Z" "abc123" .noCallback).watchdogTimersMs
      = [] ∧
    (handleSubmitKeychain (some "alice") "Hello World" "hi" "intro" ""
        "2026-10-11T00:00:00.000Z" "abc123" .noCallback).state
      = ⟨true, "", ""⟩ ∧
    (handleComment (some "alice") true "bob" "post-1" ⟨false, "", "nice"⟩ 5
        .noCallback).2.2 = [] ∧
    (handleComment (some "alice") true "bob" "post-1" ⟨false, "", "nice"⟩ 5
        .noCallback).1.submittingComment = true :=
  ⟨rfl, by decide, rfl, by decide⟩

/-- Claim C4 (amended): the agent-signed submissions (Keychain publish
and Keychain comment) install no watchdog timer and stay pending forever
when the agent callback never fires; only the key-signed handleDirectPost
flow installs a 30 second watchdog, whose firing clears the submitting
flag and surfaces the timed-out error message. -/
theorem C4_agent_paths_have_no_timeout :
    (∀ user title body tags imageUrl isoTime rand out,
      (handleSubmitKeychain user title body tags imageUrl isoTime rand
        out).watchdogTimersMs = []) ∧
    (∀ user kc author permlink s now out,
      (handleComment user kc author permlink s now out).2.2 = []) ∧
    (∀ user title body tags imageUrl isoTime rand,
      validatePublish user title body tags = none →
      (handleSubmitKeychain user title body tags imageUrl isoTime rand
        .noCallback).state = ⟨true, "", ""⟩) ∧
    (∀ (u : String) title body tags imageUrl now prompt kp bo,
      trimChars title.data ≠ [] → trimChars body.data ≠ [] →
      (handleDirectPost (some u) title body tags imageUrl now prompt kp
        bo).watchdogTimersMs = [30000]) ∧
    (∀ s, directPostTimeoutFire s =
      { s with isSubmitting := false,
               error := "Posting timed out. Please try again." }) := by
  refine ⟨?_, ?_, ?_, ?_, fun _ => rfl⟩
  · intro user title body tags imageUrl isoTime rand out
    cases h : validatePublish user title body tags <;>
      simp [handleSubmitKeychain, h]
  · intro user kc author permlink s now out
    simp only [handleComment]
    split
    · rfl
    · split
      · rfl
      · cases out with
        | noCallback => rfl
        | callback ok msg => cases ok <;> simp
  · intro user title body tags imageUrl isoTime rand hv
    simp [handleSubmitKeychain, hv, publishKeychainResolve]
  · intro u title body tags imageUrl now prompt kp bo ht hb
    unfold handleDirectPost
    rw [if_neg (by simp), if_neg ht, if_neg hb]
    split
    · rfl
    · split
      · rfl
      · cases bo <;> rfl

/-- Witness for C4: the agent flow left pending at a concrete input
passing validation, and the concrete 30 second watchdog of the direct
flow. -/
theorem C4_witness :
    validatePublish (some "alice") "Hello" "hi" "intro" = none ∧
    (handleSubmitKeychain (some "alice") "Hello" "hi" "intro" "" "iso" "r"
        .noCallback).state = ⟨true, "", ""⟩ ∧
    trimChars ("Hello" : String).data ≠ [] ∧
    (handleDirectPost (some "alice") "Hello" "hi" "" "" 12345 none false
        (Except.ok ())).watchdogTimersMs = [30000] :=
  ⟨by decide,
   C4_agent_paths_have_no_timeout.2.2.1 (some "alice") "Hello" "hi" "intro"
     "" "iso" "r" (by decide),
   by decide,
   C4_agent_paths_have_no_timeout.2.2.2.1 "alice" "Hello" "hi" "" "" 12345
     none false (Except.ok ()) (by decide) (by decide)⟩

/-- Claim C5: in the key-signed direct branch of handleSubmit, a posting
key string that fails to parse makes the submission fail immediately
with the invalid-key error, the submitting flag cleared and no batch
broadcast through the endpoint pool, while a key that parses leads to a
batch of exactly one comment operation being broadcast. -/
theorem C5_invalid_key_rejected_without_network
    (u title body tags imageUrl isoTime rand k : String)
    (bo : Except (Option String) Unit)
    (hv : validatePublish (some u) title body tags = none) (hk : k ≠ "") :
    handleSubmitDirect true (some u) title body tags imageUrl isoTime rand
        (some k) false bo =
      (⟨false,
        "Invalid private key format. Please make sure you are using the correct private posting key.",
        ""⟩, []) ∧
    (handleSubmitDirect true (some u) title body tags imageUrl isoTime rand
        (some k) true bo).2 =
      [[Operation.comment "" (firstTagOrDefault (parseTags tags)) u
          (generatePermlink title isoTime rand) title body
          (publishMetadata (parseTags tags) imageUrl)]] := by
  constructor
  · simp [handleSubmitDirect, hv, hk]
  · cases bo <;> simp [handleSubmitDirect, hv, hk]

/-- Witness for C5: the invalid-key rejection at the scenario inputs of
the specification, with no broadcast performed. -/
theorem C5_witness :
    validatePublish (some "alice") "Hello World" "hi there" "intro" = none ∧
    ("badkey" : String) ≠ "" ∧
    handleSubmitDirect true (some "alice") "Hello World" "hi there" "intro"
        "" "2026-10-11T00:00:00.000Z" "r4nd0m" (some "badkey") false
        (Except.ok ()) =
      (⟨false,
        "Invalid private key format. Please make sure you are using the correct private posting key.",
        ""⟩, []) :=
  ⟨by decide, by decide,
   (C5_invalid_key_rejected_without_network "alice" "Hello World" "hi there"
      "intro" "" "2026-10-11T00:00:00.000Z" "r4nd0m" "badkey" (Except.ok ())
      (by decide) (by decide)).1⟩

/-- Claim C6, as stated, is false: not every publish request with an
empty tag list fails. The handleDirectPost publish path validates only
the title and body; with the tags field of the form empty it still
broadcasts an operation batch (with a hardcoded tag list) and surfaces
no validation error. -/
theorem C6_counterexample :
    (handleDirectPost (some "alice") "Hello World" "hi" "" "" 12345
        (some "5JSecretKey") true (Except.ok ())).batches.length = 1 ∧
    (handleDirectPost (some "alice") "Hello World" "hi" "" "" 12345
        (some "5JSecretKey") true (Except.ok ())).state.error = "" :=
  ⟨rfl, rfl⟩

/-- Claim C6 (amended): in the main publish path (handleSubmit), an
empty trimmed title, body or tags field fails with the corresponding
validation message, every validation failure reaches neither the agent
nor the endpoint pool, and on valid input the Keychain request carries
the canonical metadata (parsed tag list, producing application
hivesocial/1.0.0, markdown format marker, optional image reference) and
a fresh identifier from generatePermlink; the alternate handleDirectPost
path, however, validates only title and body and hardcodes its tag
list. -/
theorem C6_publish_validation (u title body tags imageUrl isoTime rand : String)
    (out : AgentOutcome) (prompt : Option String) (kp : Bool)
    (bo : Except (Option String) Unit) :
    (trimChars title.data = [] →
      validatePublish (some u) title body tags = some "Please enter a title") ∧
    (trimChars title.data ≠ [] → trimChars body.data = [] →
      validatePublish (some u) title body tags =
        some "Please enter content for your post") ∧
    (trimChars title.data ≠ [] → trimChars body.data ≠ [] →
        trimChars tags.data = [] →
      validatePublish (some u) title body tags =
        some "Please enter at least one tag") ∧
    (∀ e, validatePublish (some u) title body tags = some e →
      (handleSubmitKeychain (some u) title body tags imageUrl isoTime rand
        out).request = none ∧
      (handleSubmitKeychain (some u) title body tags imageUrl isoTime rand
        out).state.error = e ∧
      (handleSubmitDirect true (some u) title body tags imageUrl isoTime rand
        prompt kp bo).2 = []) ∧
    (validatePublish (some u) title body tags = none →
      (handleSubmitKeychain (some u) title body tags imageUrl isoTime rand
        out).request =
        some ⟨u, generatePermlink title isoTime rand,
              firstTagOrDefault (parseTags tags), title, body,
              publishMetadata (parseTags tags) imageUrl, "posting"⟩) := by
  refine ⟨?_, ?_, ?_, ?_, ?_⟩
  · intro ht
    simp [validatePublish, ht]
  · intro ht hb
    simp [validatePublish, ht, hb]
  · intro ht hb hg
    simp [validatePublish, ht, hb, hg]
  · intro e he
    refine ⟨?_, ?_, ?_⟩ <;> simp [handleSubmitKeychain, handleSubmitDirect, he]
  · intro hv
    simp [handleSubmitKeychain, hv]

/-- Witness for C6: the empty-title validation failure and the canonical
request on valid input, at concrete field values. -/
theorem C6_witness :
    trimChars ("" : String).data = [] ∧
    validatePublish (some "alice") "" "body" "tag" =
      some "Please enter a title" ∧
    validatePublish (some "alice") "Hello" "body" "tag" = none ∧
    (handleSubmitKeychain (some "alice") "Hello" "body" "tag" "" "iso" "r"
        .noCallback).request =
      some ⟨"alice", generatePermlink "Hello" "iso" "r",
            firstTagOrDefault (parseTags "tag"), "Hello", "body",
            publishMetadata (parseTags "tag") "", "posting"⟩ :=
  ⟨rfl,
   (C6_publish_validation "alice" "" "body" "tag" "" "iso" "r" .noCallback
      none false (Except.ok ())).1 rfl,
   by decide,
   (C6_publish_validation "alice" "Hello" "body" "tag" "" "iso" "r"
      .noCallback none false (Except.ok ())).2.2.2.2 (by decide)⟩

/-- Claim C8, as stated, is false: the helpers do not always resolve to
a typed result, and an exception can pass their boundary. When the agent
is installed but its callback never fires, likePost never settles, since
no timer guards the wait; and when the call into the agent throws
synchronously inside the Promise executor, the returned promise rejects
and the rejection passes the un-awaited try/catch of the helper. -/
theorem C8_counterexample :
    (likePost true "alice" "bob" "post-1" 10000 .noCallback).1 =
      HelperOutcome.pending ∧
    (likePost true "alice" "bob" "post-1" 10000
        (.requestThrows (some "agent failure"))).1 =
      HelperOutcome.rejected (some "agent failure") :=
  ⟨rfl, rfl⟩

/-- Claim C8 (amended): on every input on which the returned promise
settles with a value (missing client or username, agent absent, agent
callback invoked, or an exception inside the helper body caught by its
try/catch), the four social write helpers resolve to a typed result with
a boolean success flag, carrying a non-empty error message on every
failure path; but when the installed agent never invokes its callback
the promise never settles, and when the call into the agent throws
synchronously the rejection passes the helper boundary uncaught. -/
theorem C8_settled_results_well_formed :
    (∀ c u a p w env r,
      (likePost c u a p w env).1 = HelperOutcome.resolved r →
      wellFormedResult r) ∧
    (∀ c u pa pp b opts now env r,
      (commentOnPost c u pa pp b opts now env).1 = HelperOutcome.resolved r →
      wellFormedResult r) ∧
    (∀ c f g env r,
      (followUser c f g env).1 = HelperOutcome.resolved r →
      wellFormedResult r) ∧
    (∀ c f g env r,
      (unfollowUser c f g env).1 = HelperOutcome.resolved r →
      wellFormedResult r) ∧
    (∀ u a p w, u ≠ "" →
      (likePost true u a p w .noCallback).1 = HelperOutcome.pending) ∧
    (∀ u pa pp b opts now, u ≠ "" →
      (commentOnPost true u pa pp b opts now .noCallback).1 =
        HelperOutcome.pending) ∧
    (∀ f g, f ≠ "" →
      (followUser true f g .noCallback).1 = HelperOutcome.pending) ∧
    (∀ f g, f ≠ "" →
      (unfollowUser true f g .noCallback).1 = HelperOutcome.pending) ∧
    (∀ u a p w msg, u ≠ "" →
      (likePost true u a p w (.requestThrows msg)).1 =
        HelperOutcome.rejected msg) ∧
    (∀ u pa pp b opts now msg, u ≠ "" →
      (commentOnPost true u pa pp b opts now (.requestThrows msg)).1 =
        HelperOutcome.rejected msg) ∧
    (∀ f g msg, f ≠ "" →
      (followUser true f g (.requestThrows msg)).1 =
        HelperOutcome.rejected msg) ∧
    (∀ f g msg, f ≠ "" →
      (unfollowUser true f g (.requestThrows msg)).1 =
        HelperOutcome.rejected msg) := by
  refine ⟨?_, ?_, ?_, ?_, ?_, ?_, ?_, ?_, ?_, ?_, ?_, ?_⟩
  · intro c u a p w env r h
    simp only [wellFormedResult]
    unfold likePost at h
    by_cases hcu : c = false ∨ u = ""
    · rw [if_pos hcu] at h
      injection h with hr
      subst hr
      exact Or.inr ⟨_, rfl, by decide⟩
    · rw [if_neg hcu] at h
      cases env with
      | bodyThrows msg =>
          injection h with hr
          subst hr
          exact Or.inr ⟨_, rfl, jsOr_ne_empty _ _ (by decide)⟩
      | absent =>
          injection h with hr
          subst hr
          exact Or.inl rfl
      | callback ok msg =>
          cases ok with
          | true =>
              injection h with hr
              subst hr
              exact Or.inl rfl
          | false =>
              injection h with hr
              subst hr
              exact Or.inr ⟨_, rfl, jsOr_ne_empty _ _ (by decide)⟩
      | noCallback => simp at h
      | requestThrows msg => simp at h
  · intro c u pa pp b opts now env r h
    simp only [wellFormedResult]
    unfold commentOnPost at h
    by_cases hcu : c = false ∨ u = ""
    · rw [if_pos hcu] at h
      injection h with hr
      subst hr
      exact Or.inr ⟨_, rfl, by decide⟩
    · rw [if_neg hcu] at h
      cases env with
      | bodyThrows msg =>
          injection h with hr
          subst hr
          exact Or.inr ⟨_, rfl, jsOr_ne_empty _ _ (by decide)⟩
      | absent =>
          injection h with hr
          subst hr
          exact Or.inl rfl
      | callback ok msg =>
          cases ok with
          | true =>
              injection h with hr
              subst hr
              exact Or.inl rfl
          | false =>
              injection h with hr
              subst hr
              exact Or.inr ⟨_, rfl, jsOr_ne_empty _ _ (by decide)⟩
      | noCallback => simp at h
      | requestThrows msg => simp at h
  · intro c f g env r h
    simp only [wellFormedResult]
    unfold followUser at h
    by_cases hcf : c = false ∨ f = ""
    · rw [if_pos hcf] at h
      injection h with hr
      subst hr
      exact Or.inr ⟨_, rfl, by decide⟩
    · rw [if_neg hcf] at h
      cases env with
      | bodyThrows msg =>
          injection h with hr
          subst hr
          exact Or.inr ⟨_, rfl, jsOr_ne_empty _ _ (by decide)⟩
      | absent =>
          injection h with hr
          subst hr
          exact Or.inl rfl
      | callback ok msg =>
          cases ok with
          | true =>
              injection h with hr
              subst hr
              exact Or.inl rfl
          | false =>
              injection h with hr
              subst hr
              exact Or.inr ⟨_, rfl, jsOr_ne_empty _ _ (by decide)⟩
      | noCallback => simp at h
      | requestThrows msg => simp at h
  · intro c f g env r h
    simp only [wellFormedResult]
    unfold unfollowUser at h
    by_cases hcf : c = false ∨ f = ""
    · rw [if_pos hcf] at h
      injection h with hr
      subst hr
      exact Or.inr ⟨_, rfl, by decide⟩
    · rw [if_neg hcf] at h
      cases env with
      | bodyThrows msg =>
          injection h with hr
          subst hr
          exact Or.inr ⟨_, rfl, jsOr_ne_empty _ _ (by decide)⟩
      | absent =>
          injection h with hr
          subst hr
          exact Or.inl rfl
      | callback ok msg =>
          cases ok with
          | true =>
              injection h with hr
              subst hr
              exact Or.inl rfl
          | false =>
              injection h with hr
              subst hr
              exact Or.inr ⟨_, rfl, jsOr_ne_empty _ _ (by decide)⟩
      | noCallback => simp at h
      | requestThrows msg => simp at h
  · intro u a p w hu
    simp [likePost, hu]
  · intro u pa pp b opts now hu
    simp [commentOnPost, hu]
  · intro f g hf
    simp [followUser, hf]
  · intro f g hf
    simp [unfollowUser, hf]
  · intro u a p w msg hu
    simp [likePost, hu]
  · intro u pa pp b opts now msg hu
    simp [commentOnPost, hu]
  · intro f g msg hf
    simp [followUser, hf]
  · intro f g msg hf
    simp [unfollowUser, hf]

/-- Witness for C8: a well-formed failure value from a settled call at a
concrete agent failure, and the pending outcome at a concrete input on
which the agent never invokes its callback. -/
theorem C8_witness :
    wellFormedResult { success := false,
                       error := some "Failed to vote with Keychain" } ∧
    ("alice" : String) ≠ "" ∧
    (likePost true "alice" "bob" "post-1" 10000 .noCallback).1 =
      HelperOutcome.pending :=
  ⟨C8_settled_results_well_formed.1 true "alice" "bob" "post-1" 10000
      (.callback false none) _ rfl,
   by decide,
   C8_settled_results_well_formed.2.2.2.2.1 "alice" "bob" "post-1" 10000
     (by decide)⟩

/-- Claim C9, as stated, is false: session persistence is not a single
stored field. After an Ecency login followed by a logout, the stored
access token is still present: logout removes only the actor name, and
the Ecency login path persists the token and its expiry in addition to
the actor name. -/
theorem C9_counterexample :
    logoutStorage (ecencyLoginStorage emptyStorage "/" "alice" "token123"
        "999") "hivesocial_token" = some "token123" ∧
    logoutStorage (ecencyLoginStorage emptyStorage "/" "alice" "token123"
        "999") "hivesocial_user" = none :=
  ⟨rfl, rfl⟩

/-- Claim C9 (amended): the actor name is stored under a single key,
read at startup to restore the identity and removed on logout, and the
direct and Keychain login paths touch no other key; the Ecency login
path, however, additionally persists an access token and a token expiry,
which logout does not clear. -/
theorem C9_session_storage (st : Storage) (u rp tok ex : String)
    (hu : u ≠ "") :
    startupUser (directLoginStorage st u) = some u ∧
    startupUser (keychainLoginStorage st u) = some u ∧
    logoutStorage st "hivesocial_user" = none ∧
    (∀ k, k ≠ "hivesocial_user" → directLoginStorage st u k = st k) ∧
    (∀ k, k ≠ "hivesocial_user" → keychainLoginStorage st u k = st k) ∧
    ecencyLoginStorage st rp u tok ex "hivesocial_token" = some tok ∧
    ecencyLoginStorage st rp u tok ex "hivesocial_token_expiry" = some ex ∧
    logoutStorage (ecencyLoginStorage st rp u tok ex) "hivesocial_token"
      = some tok := by
  refine ⟨?_, ?_, ?_, ?_, ?_, ?_, ?_, ?_⟩
  · simp [startupUser, directLoginStorage, setItem, hu]
  · simp [startupUser, keychainLoginStorage, setItem, hu]
  · simp [logoutStorage, removeItem]
  · intro k hk
    simp [directLoginStorage, setItem, hk]
  · intro k hk
    simp [keychainLoginStorage, setItem, hk]
  · simp [ecencyLoginStorage, setItem, removeItem]
  · simp [ecencyLoginStorage, setItem, removeItem]
  · simp [logoutStorage, ecencyLoginStorage, setItem, removeItem]

/-- Witness for C9: the startup read after a direct login at a concrete
actor name. -/
theorem C9_witness :
    ("alice" : String) ≠ "" ∧
    startupUser (directLoginStorage emptyStorage "alice") = some "alice" :=
  ⟨by decide,
   (C9_session_storage emptyStorage "alice" "/" "tok" "99" (by decide)).1⟩

end HiveSocial
